import Mathlib

/-!
Verification of the CaffiAIne Montreal festival assistant.

This file shallowly embeds the parts of the repository that the claims
C1–C10 are about:

* `src/festival_service.py` — `get_ongoing_festivals`, `_get_fallback_festivals`
* `src/api_integrations.py` — `APIIntegrations.get_live_festivals`,
  `_is_valid_festival`, `_categorize_event`
* `src/main.py` — `MontrealFestivalAssistant.get_festivals_by_criteria`,
  `_parse_datetime`, `_get_next_weekday`, `_is_festival_at_time`,
  `_parse_user_input`

Python `datetime` values are modelled as an integer "wall clock" timestamp
in seconds (derived from the proleptic Gregorian calendar via the standard
days-from-civil formula) together with an optional UTC offset in seconds
(`none` = naive datetime, `some o` = timezone-aware with offset `o`).
Comparing two naive or two aware datetimes compares instants; comparing a
naive with an aware datetime raises `TypeError` in Python, which the
embedding surfaces as `none` from `pyCompareLe`.

`datetime.fromisoformat` is modelled for the grammar the repository
produces and consumes: `YYYY-MM-DD`, optionally followed by `THH:MM` or
`THH:MM:SS`, optionally followed by an explicit `+HH:MM` / `-HH:MM` offset
(the code replaces a literal `Z` by `+00:00` before parsing).  Fractional
seconds are not modelled.  Field ranges are validated as Python does,
including days-per-month and leap years.

`pytz.timezone('America/Montreal').localize` is modelled as attaching the
fixed Montreal summer (EDT) offset; daylight-saving transitions are not
modelled, and no claim depends on the concrete value of the offset beyond
all localized values receiving the same one.
-/

/-- Python `str.lower()` (all strings in the repository are ASCII). -/
def pyLower (s : String) : String :=
  ⟨s.data.map Char.toLower⟩

/-- Holds when list `n` is an initial segment of `h`. -/
def startsWithL : List Char → List Char → Bool
  | [], _ => true
  | _ :: _, [] => false
  | a :: as, b :: bs => a == b && startsWithL as bs

/-- Python substring containment `n in h` on character lists. -/
def listIn (n : List Char) : List Char → Bool
  | [] => startsWithL n []
  | c :: t => startsWithL n (c :: t) || listIn n t

/-- Python `needle in haystack` on strings. -/
def pyIn (needle haystack : String) : Bool :=
  listIn needle.data haystack.data

/-- Python `s.replace('Z', '+00:00')` on character lists. -/
def replaceZChars : List Char → List Char
  | [] => []
  | c :: t => if c == 'Z' then '+' :: '0' :: '0' :: ':' :: '0' :: '0' :: replaceZChars t
              else c :: replaceZChars t

/-- Python `s.replace('Z', '+00:00')`. -/
def pyReplaceZ (s : String) : String :=
  ⟨replaceZChars s.data⟩

/-- Gregorian leap-year test, as Python's `datetime` uses. -/
def isLeap (y : Nat) : Bool :=
  y % 4 == 0 && (y % 100 != 0 || y % 400 == 0)

/-- Number of days in month `m` of year `y`. -/
def daysInMonth (y m : Nat) : Nat :=
  if m == 2 then (if isLeap y then 29 else 28)
  else if m == 4 || m == 6 || m == 9 || m == 11 then 30
  else 31

/-- Days since 1970-01-01 of the Gregorian date `y-m-d` (the standard
days-from-civil formula, for years ≥ 1). -/
def daysFromCivil (y m d : Nat) : Int :=
  let y' := if m ≤ 2 then y - 1 else y
  let era := y' / 400
  let yoe := y' % 400
  let mp := (m + 9) % 12
  let doy := (153 * mp + 2) / 5 + (d - 1)
  let doe := yoe * 365 + yoe / 4 - yoe / 100 + doy
  (era * 146097 + doe : Int) - 719468

/-- Wall-clock timestamp in seconds of `y-m-d h:mi:s`. -/
def civilTs (y m d h mi s : Nat) : Int :=
  daysFromCivil y m d * 86400 + (h * 3600 + mi * 60 + s : Nat)

/-- A Python `datetime`: wall-clock seconds plus optional UTC offset in
seconds (`none` = naive). -/
structure PyDateTime where
  ts : Int
  off : Option Int
deriving DecidableEq, Repr

/-- The instant (UTC seconds) an aware datetime denotes; for a naive
datetime the wall clock itself (only used after everything is localized). -/
def utcTs (dt : PyDateTime) : Int :=
  dt.ts - dt.off.getD 0

/-- Python `a <= b` on datetimes: `none` models the `TypeError` raised when
a naive and an aware datetime are compared. -/
def pyCompareLe (a b : PyDateTime) : Option Bool :=
  match a.off, b.off with
  | none, none => some (decide (a.ts ≤ b.ts))
  | some oa, some ob => some (decide (a.ts - oa ≤ b.ts - ob))
  | _, _ => none

/-- One ASCII digit. -/
def digitVal (c : Char) : Option Nat :=
  if '0' ≤ c ∧ c ≤ '9' then some (c.toNat - '0'.toNat) else none

/-- Two ASCII digits from the front of a character list. -/
def take2Digits : List Char → Option (Nat × List Char)
  | a :: b :: t => do
    let x ← digitVal a
    let y ← digitVal b
    pure (x * 10 + y, t)
  | _ => none

/-- Four ASCII digits from the front of a character list. -/
def take4Digits (cs : List Char) : Option (Nat × List Char) := do
  let (hi, r) ← take2Digits cs
  let (lo, r') ← take2Digits r
  pure (hi * 100 + lo, r')

/-- Expect a specific character at the front. -/
def expectChar (c : Char) : List Char → Option (List Char)
  | x :: t => if x == c then some t else none
  | [] => none

/-- Parse `YYYY-MM-DD` from the front, validating ranges as Python does. -/
def takeDate (cs : List Char) : Option (Nat × Nat × Nat × List Char) := do
  let (y, r1) ← take4Digits cs
  let r2 ← expectChar '-' r1
  let (m, r3) ← take2Digits r2
  let r4 ← expectChar '-' r3
  let (d, r5) ← take2Digits r4
  if 1 ≤ m ∧ m ≤ 12 ∧ 1 ≤ d ∧ d ≤ daysInMonth y m then
    pure (y, m, d, r5)
  else none

/-- Parse `HH:MM` or `HH:MM:SS` from the front, validating ranges. -/
def takeTime (cs : List Char) : Option (Nat × List Char) := do
  let (h, r1) ← take2Digits cs
  let r2 ← expectChar ':' r1
  let (mi, r3) ← take2Digits r2
  if h ≤ 23 ∧ mi ≤ 59 then
    match r3 with
    | ':' :: r4 => do
      let (s, r5) ← take2Digits r4
      if s ≤ 59 then pure (h * 3600 + mi * 60 + s, r5) else none
    | _ => pure (h * 3600 + mi * 60, r3)
  else none

/-- Parse a trailing `+HH:MM` / `-HH:MM` UTC offset; `none` in the result
means no offset was present (naive). -/
def takeOffset : List Char → Option (Option Int)
  | [] => some none
  | c :: t =>
    if c == '+' ∨ c == '-' then do
      let (oh, r1) ← take2Digits t
      let r2 ← expectChar ':' r1
      let (om, r3) ← take2Digits r2
      if oh ≤ 23 ∧ om ≤ 59 ∧ r3 = [] then
        let secs : Int := (oh * 3600 + om * 60 : Nat)
        pure (some (if c == '-' then -secs else secs))
      else none
    else none

/-- Python `datetime.fromisoformat`, restricted to the grammar the
repository produces: `YYYY-MM-DD[THH:MM[:SS]][±HH:MM]`. -/
def pyFromIsoformat (s : String) : Option PyDateTime := do
  let (y, m, d, r) ← takeDate s.data
  match r with
  | [] => pure ⟨civilTs y m d 0 0 0, none⟩
  | 'T' :: r1 => do
    let (secs, r2) ← takeTime r1
    let off ← takeOffset r2
    pure ⟨daysFromCivil y m d * 86400 + (secs : Nat), off⟩
  | _ => none

/-- Python `datetime.strptime(s, "%Y-%m-%d")`: a bare date, nothing else. -/
def pyStrptimeDate (s : String) : Option PyDateTime := do
  let (y, m, d, r) ← takeDate s.data
  if r = [] then pure ⟨civilTs y m d 0 0 0, none⟩ else none

/-- A festival dictionary.  Each field is `Option` because the Python code
works with dicts whose keys may be absent (`none` = key not present). -/
structure Festival where
  name : Option String := none
  venue : Option String := none
  address : Option String := none
  start_date : Option String := none
  end_date : Option String := none
  url : Option String := none
  source : Option String := none
  category : Option String := none
  price : Option String := none
  metro : Option String := none
deriving DecidableEq, Repr

/-- Embeds `festival_service._get_fallback_festivals`: the hardcoded seed list. -/
def get_fallback_festivals : List Festival :=
  [ { name := some "Montreal Jazz Festival",
      venue := some "Quartier des Spectacles",
      address := some "Quartier des Spectacles, Montreal, QC H2X 1X8",
      start_date := some "2024-06-27T18:00:00",
      end_date := some "2024-07-06T23:00:00",
      url := some "https://www.montrealjazzfest.com",
      source := some "Fallback Data",
      category := some "music",
      price := some "$25-150 CAD",
      metro := some "Place-des-Arts" },
    { name := some "Osheaga Music Festival",
      venue := some "Parc Jean-Drapeau",
      address := some "Parc Jean-Drapeau, Montreal, QC H3C 6A3",
      start_date := some "2024-08-02T12:00:00",
      end_date := some "2024-08-04T23:00:00",
      url := some "https://www.osheaga.com",
      source := some "Fallback Data",
      category := some "music",
      price := some "$150-300 CAD",
      metro := some "Jean-Drapeau" },
    { name := some "Just for Laughs Comedy Festival",
      venue := some "Quartier Latin",
      address := some "Quartier Latin, Montreal, QC H2L 2L4",
      start_date := some "2024-07-10T19:00:00",
      end_date := some "2024-07-28T23:00:00",
      url := some "https://www.hahaha.com",
      source := some "Fallback Data",
      category := some "comedy",
      price := some "$30-120 CAD",
      metro := some "Berri-UQAM" },
    { name := some "Montreal International Film Festival",
      venue := some "Various Cinemas",
      address := some "Downtown Montreal, QC",
      start_date := some "2024-08-22T10:00:00",
      end_date := some "2024-09-02T23:00:00",
      url := some "https://www.ffm-montreal.org",
      source := some "Fallback Data",
      category := some "film",
      price := some "$15-50 CAD",
      metro := some "Place-des-Arts" },
    { name := some "Montreal Food Festival",
      venue := some "Old Port of Montreal",
      address := some "Old Port of Montreal, QC H2Y 1C6",
      start_date := some "2024-07-15T11:00:00",
      end_date := some "2024-07-21T22:00:00",
      url := some "https://www.montrealfoodfest.com",
      source := some "Fallback Data",
      category := some "food",
      price := some "$20-80 CAD",
      metro := some "Place-d'Armes" } ]

/-- Embeds `APIIntegrations._is_valid_festival`.  `current_date` is the naive
`datetime.now()` timestamp.  The inner `except` around the date comparison
catches both the parse failure of `fromisoformat` and the `TypeError`
raised when a timezone-aware parsed start is compared with the naive
`current_date`, so both yield `false`. -/
def is_valid_festival (festival : Festival) (current_date : Int) : Bool :=
  match festival.name, festival.venue, festival.start_date with
  | some nm, some _, some sd =>
    if nm.length < 3 then false
    else
      match pyFromIsoformat (pyReplaceZ sd) with
      | none => false
      | some start_date =>
        match start_date.off with
        | some _ => false
        | none =>
          decide (current_date - 30 * 86400 ≤ start_date.ts ∧
                  start_date.ts ≤ current_date + 90 * 86400)
  | _, _, _ => false

/-- The filter-and-validate loop inside `APIIntegrations.get_live_festivals`
(the `for festival in festivals: if self._is_valid_festival(...)` loop). -/
def filter_valid (festivals : List Festival) (current_date : Int) : List Festival :=
  festivals.foldl (fun acc f => if is_valid_festival f current_date then acc ++ [f] else acc) []

/-- Embeds `festival_service.get_ongoing_festivals`, as a function of the outcome
of the live collection `get_live_festivals_from_apis()`: an exception, or
a list of festivals. -/
def get_ongoing_festivals (live : Except String (List Festival)) : List Festival :=
  match live with
  | Except.error _ => get_fallback_festivals
  | Except.ok festivals =>
    if festivals.isEmpty then get_fallback_festivals else festivals

/-- The keyword table of `APIIntegrations._categorize_event`, in source
order. -/
def categoryTable : List (String × List String) :=
  [ ("music", ["music", "concert", "jazz", "rock", "pop", "band", "singer", "festival"]),
    ("film", ["film", "movie", "cinema", "documentary", "screening", "festival"]),
    ("food", ["food", "culinary", "wine", "beer", "taste", "dining", "restaurant", "festival"]),
    ("art", ["art", "exhibition", "gallery", "museum", "painting", "sculpture", "festival"]),
    ("comedy", ["comedy", "standup", "humor", "laugh", "joke", "festival"]),
    ("dance", ["dance", "ballet", "performance", "theatre", "theater", "festival"]) ]

/-- Embeds `APIIntegrations._categorize_event`: the if/elif chain from the source. -/
def categorize_event (event_name : String) : String :=
  let event_lower := pyLower event_name
  if ["music", "concert", "jazz", "rock", "pop", "band", "singer", "festival"].any (fun w => pyIn w event_lower) then "music"
  else if ["film", "movie", "cinema", "documentary", "screening", "festival"].any (fun w => pyIn w event_lower) then "film"
  else if ["food", "culinary", "wine", "beer", "taste", "dining", "restaurant", "festival"].any (fun w => pyIn w event_lower) then "food"
  else if ["art", "exhibition", "gallery", "museum", "painting", "sculpture", "festival"].any (fun w => pyIn w event_lower) then "art"
  else if ["comedy", "standup", "humor", "laugh", "joke", "festival"].any (fun w => pyIn w event_lower) then "comedy"
  else if ["dance", "ballet", "performance", "theatre", "theater", "festival"].any (fun w => pyIn w event_lower) then "dance"
  else "other"

/-- First category of `categoryTable` one of whose keywords occurs in the
lowercased text, else "other" — the spec's description of the classifier
as a first-match lookup over the ordered table. -/
def firstMatchCategory (event_name : String) : String :=
  let event_lower := pyLower event_name
  match categoryTable.find? (fun p => p.2.any (fun w => pyIn w event_lower)) with
  | some p => p.1
  | none => "other"

/-- The UTC offset `pytz.timezone('America/Montreal')` attaches during the
festival season (EDT, UTC−4), in seconds.  Daylight-saving transitions are
not modelled; no theorem below depends on the concrete value. -/
def MONTREAL_OFFSET : Int := -4 * 3600

/-- Models `MONTREAL_TZ.localize` applied to a naive datetime. -/
def localizeMontreal (dt : PyDateTime) : PyDateTime :=
  { dt with off := some MONTREAL_OFFSET }

/-- Models `if dt.tzinfo is None: dt = MONTREAL_TZ.localize(dt)`. -/
def localizeIfNaive (dt : PyDateTime) : PyDateTime :=
  match dt.off with
  | none => localizeMontreal dt
  | some _ => dt

/-- The wall-clock calendar date (as a day number) of a naive timestamp,
i.e. Python's `.date()`. -/
def dateOfTs (ts : Int) : Int :=
  ts / 86400

/-- The wall-clock seconds-into-the-day of a timestamp, i.e. `.time()`. -/
def secOfDay (ts : Int) : Int :=
  ts % 86400

/-- Python's `date.weekday()` (Monday = 0) of a day number; day 0
(1970-01-01) was a Thursday. -/
def pyWeekday (day : Int) : Int :=
  (day + 3) % 7

/-- Embeds `MontrealFestivalAssistant._get_next_weekday`, as a function of the
requested weekday and today's date (a day number). -/
def get_next_weekday (weekday : Int) (today : Int) : Int :=
  let days_ahead := weekday - pyWeekday today
  if days_ahead ≤ 0 then today + (days_ahead + 7) else today + days_ahead

/-- Models `datetime.strptime(s, "%H:%M")`: exactly `HH:MM`, as seconds. -/
def pyStrptimeTimeHM (s : String) : Option Int := do
  let (h, r1) ← take2Digits s.data
  let r2 ← expectChar ':' r1
  let (mi, r3) ← take2Digits r2
  if h ≤ 23 ∧ mi ≤ 59 ∧ r3 = [] then pure ((h * 3600 + mi * 60 : Nat) : Int) else none

/-- Embeds `MontrealFestivalAssistant._parse_datetime`: resolve a (day, time)
criteria pair to a Montreal-aware datetime, given the current Montreal
time `current`. -/
def parse_datetime (day time : String) (current : PyDateTime) : PyDateTime :=
  let today := dateOfTs current.ts
  let day_lower := pyLower day
  let time_lower := pyLower time
  let dt : Int × String :=
    if day_lower = "today" ∨ day_lower = "now" then (today, time_lower)
    else if day_lower = "tomorrow" then (dateOfTs (current.ts + 86400), time_lower)
    else if day_lower = "tonight" then (today, "evening")
    else if day_lower = "monday" ∨ day_lower = "mon" then (get_next_weekday 0 today, time_lower)
    else if day_lower = "tuesday" ∨ day_lower = "tue" then (get_next_weekday 1 today, time_lower)
    else if day_lower = "wednesday" ∨ day_lower = "wed" then (get_next_weekday 2 today, time_lower)
    else if day_lower = "thursday" ∨ day_lower = "thu" then (get_next_weekday 3 today, time_lower)
    else if day_lower = "friday" ∨ day_lower = "fri" then (get_next_weekday 4 today, time_lower)
    else if day_lower = "saturday" ∨ day_lower = "sat" then (get_next_weekday 5 today, time_lower)
    else if day_lower = "sunday" ∨ day_lower = "sun" then (get_next_weekday 6 today, time_lower)
    else
      match pyStrptimeDate day with
      | some d => (dateOfTs d.ts, time_lower)
      | none => (today, time_lower)
  let target_date := dt.1
  let time_lower := dt.2
  let target_secs : Int :=
    if time_lower = "morning" ∨ time_lower = "am" then 9 * 3600
    else if time_lower = "afternoon" ∨ time_lower = "pm" then 14 * 3600
    else if time_lower = "evening" ∨ time_lower = "night" then 19 * 3600
    else
      match pyStrptimeTimeHM time with
      | some s => s
      | none => secOfDay current.ts
  localizeMontreal ⟨target_date * 86400 + target_secs, none⟩

/-- The per-string date handling of `_is_festival_at_time`: replace `Z` by
`+00:00`, then `fromisoformat` when the string contains `T`, else
`strptime "%Y-%m-%d"` immediately localized to Montreal. -/
def parseEventDateStr (s : String) : Option PyDateTime :=
  let date_str := pyReplaceZ s
  if pyIn "T" date_str then pyFromIsoformat date_str
  else (pyStrptimeDate date_str).map localizeMontreal

/-- Embeds `MontrealFestivalAssistant._is_festival_at_time`: parse the event's
start/end (full-timestamp form via `fromisoformat` when the string
contains `T`, else date-only via `strptime` immediately localized),
localize anything still naive, and compare instants.  Any failure (missing
key, unparseable string) is caught and yields `false`. -/
def is_festival_at_time (festival : Festival) (target_datetime : PyDateTime) : Bool :=
  match festival.start_date, festival.end_date with
  | some s, some e =>
    match parseEventDateStr s, parseEventDateStr e with
    | some sd, some ed =>
      let sd := localizeIfNaive sd
      let ed := localizeIfNaive ed
      let tg := localizeIfNaive target_datetime
      decide (utcTs sd ≤ utcTs tg) && decide (utcTs tg ≤ utcTs ed)
    | _, _ => false
  | _, _ => false

/-- The category-match test inside
`MontrealFestivalAssistant.get_festivals_by_criteria`; `festival['name']`
raises `KeyError` when the key is absent, modelled as `Except.error`. -/
def categoryMatchE (category : String) (f : Festival) : Except Unit Bool :=
  match f.name with
  | none => Except.error ()
  | some nm =>
    Except.ok (pyIn (pyLower category) (pyLower nm) ||
               pyIn (pyLower category) (pyLower (f.category.getD "")))

/-- Embeds `MontrealFestivalAssistant.get_festivals_by_criteria`, as a function of
the festival list and current Montreal time.  The `time_match` the source
computes is bound and discarded exactly as in the code; the outer `except`
turns any raised error into `[]`. -/
def get_festivals_by_criteria
    (festivals : List Festival) (category day time : String)
    (current : PyDateTime) : List Festival :=
  let run : Except Unit (List Festival) :=
    if (pyLower day = "any" ∨ pyLower day = "all" ∨ pyLower day = "") ∧
       (pyLower time = "any" ∨ pyLower time = "all" ∨ pyLower time = "") then
      festivals.foldlM (fun acc f => do
        let b ← categoryMatchE category f
        pure (if b then acc ++ [f] else acc)) []
    else
      let target_datetime := parse_datetime day time current
      festivals.foldlM (fun acc f => do
        let b ← categoryMatchE category f
        let _time_match := is_festival_at_time f target_datetime
        pure (if b then acc ++ [f] else acc)) []
  match run with
  | Except.ok l => l
  | Except.error _ => []

/-- Python whitespace for `str.split()`. -/
def isPySpace (c : Char) : Bool :=
  c == ' ' || c == '\t' || c == '\n' || c == '\r' || c == '\x0b' || c == '\x0c'

/-- Helper for `pySplit`: split on whitespace runs, dropping empties. -/
def splitWsChars : List Char → List Char → List String
  | [], cur => if cur = [] then [] else [⟨cur.reverse⟩]
  | c :: t, cur =>
    if isPySpace c then
      if cur = [] then splitWsChars t [] else (⟨cur.reverse⟩ : String) :: splitWsChars t []
    else splitWsChars t (c :: cur)

/-- Python `s.split()` (no argument: whitespace runs, empties dropped). -/
def pySplit (s : String) : List String :=
  splitWsChars s.data []

/-- The `category_keywords` table of `_parse_user_input`, in source order. -/
def category_keywords : List (String × List String) :=
  [ ("music", ["music", "concert", "jazz", "rock", "pop"]),
    ("film", ["film", "movie", "cinema", "documentary"]),
    ("food", ["food", "culinary", "wine", "beer", "taste"]),
    ("art", ["art", "exhibition", "gallery", "museum"]),
    ("comedy", ["comedy", "standup", "humor"]),
    ("dance", ["dance", "ballet", "performance"]) ]

/-- The `day_keywords` table of `_parse_user_input`, in source order. -/
def day_keywords : List (String × List String) :=
  [ ("today", ["today", "now"]),
    ("tomorrow", ["tomorrow"]),
    ("tonight", ["tonight"]),
    ("monday", ["monday", "mon"]),
    ("tuesday", ["tuesday", "tue"]),
    ("wednesday", ["wednesday", "wed"]),
    ("thursday", ["thursday", "thu"]),
    ("friday", ["friday", "fri"]),
    ("saturday", ["saturday", "sat"]),
    ("sunday", ["sunday", "sun"]) ]

/-- The `time_keywords` table of `_parse_user_input`, in source order. -/
def time_keywords : List (String × List String) :=
  [ ("morning", ["morning", "am"]),
    ("afternoon", ["afternoon", "pm"]),
    ("evening", ["evening", "night"]),
    ("night", ["night"]) ]

/-- The double loop of `_parse_user_input`: the first word that is a member
of some keyword list selects that table entry's key (first entry wins). -/
def findKeyword (table : List (String × List String)) : List String → Option String
  | [] => none
  | w :: rest =>
    match table.find? (fun p => p.2.contains w) with
    | some p => some p.1
    | none => findKeyword table rest

/-- The category-inference fallback of `_parse_user_input` (substring tests
on the whole lowercased input, run when no word matched the table). -/
def inferCategory (input_lower : String) (dflt : String) : String :=
  if ["music", "concert", "jazz"].any (fun w => pyIn w input_lower) then "music"
  else if ["food", "culinary", "restaurant"].any (fun w => pyIn w input_lower) then "food"
  else if ["comedy", "humor", "standup"].any (fun w => pyIn w input_lower) then "comedy"
  else if ["art", "exhibition", "gallery"].any (fun w => pyIn w input_lower) then "art"
  else if ["dance", "ballet"].any (fun w => pyIn w input_lower) then "dance"
  else if ["film", "movie", "cinema"].any (fun w => pyIn w input_lower) then "film"
  else dflt

/-- The time-of-day inference of `_parse_user_input`, from the current
Montreal hour, run when no word matched the time table. -/
def inferTime (current_hour : Int) : String :=
  if 6 ≤ current_hour ∧ current_hour < 12 then "morning"
  else if 12 ≤ current_hour ∧ current_hour < 17 then "afternoon"
  else if 17 ≤ current_hour ∧ current_hour < 22 then "evening"
  else "night"

/-- Embeds `MontrealFestivalAssistant._parse_user_input`, as a function of the
input string and the current Montreal hour (the only part of the clock it
reads).  Returns (category, day, time). -/
def parse_user_input (user_input : String) (current_hour : Int) :
    String × String × String :=
  let input_lower := pyLower user_input
  let words := pySplit input_lower
  let category :=
    match findKeyword category_keywords words with
    | some c => c
    | none => inferCategory input_lower "music"
  let day := (findKeyword day_keywords words).getD "today"
  let time :=
    match findKeyword time_keywords words with
    | some t => t
    | none => inferTime current_hour
  (category, day, time)

/-! ## Helper lemmas shared by the claim theorems -/

/-- Characterization of `_is_valid_festival`: an event is kept exactly when
name, venue and start_date are present, the name has at least 3
characters, and the start parses to a timezone-naive timestamp lying in
`[now − 30d, now + 90d]`. -/
theorem is_valid_festival_iff (f : Festival) (now : Int) :
    is_valid_festival f now = true ↔
      ∃ nm v sd ts, f.name = some nm ∧ f.venue = some v ∧ f.start_date = some sd ∧
        3 ≤ nm.length ∧ pyFromIsoformat (pyReplaceZ sd) = some ⟨ts, none⟩ ∧
        now - 30 * 86400 ≤ ts ∧ ts ≤ now + 90 * 86400 := by
  unfold is_valid_festival
  cases hn : f.name with
  | none => simp
  | some nm =>
    cases hv : f.venue with
    | none => simp
    | some v =>
      cases hs : f.start_date with
      | none => simp
      | some sd =>
        simp only [Option.some.injEq]
        split
        · rename_i hlen
          constructor
          · intro h; exact absurd h (by simp)
          · rintro ⟨nm', v', sd', ts, hnm, -, hsd, hlen', -⟩
            cases hnm; cases hsd; omega
        · rename_i hlen
          cases hp : pyFromIsoformat (pyReplaceZ sd) with
          | none =>
            dsimp only
            constructor
            · intro h; exact absurd h (by simp)
            · rintro ⟨nm', v', sd', ts, hnm, -, hsd, -, hp', -⟩
              cases hnm; cases hsd; rw [hp] at hp'; exact absurd hp' (by simp)
          | some dt =>
            obtain ⟨ts0, off0⟩ := dt
            cases off0 with
            | some o =>
              dsimp only
              constructor
              · intro h; exact absurd h (by simp)
              · rintro ⟨nm', v', sd', ts, hnm, -, hsd, -, hp', -⟩
                cases hnm; cases hsd; rw [hp] at hp'; exact absurd hp' (by simp)
            | none =>
              dsimp only
              constructor
              · intro h
                exact ⟨nm, v, sd, ts0, rfl, rfl, rfl, by omega, hp,
                  (of_decide_eq_true h).1, (of_decide_eq_true h).2⟩
              · rintro ⟨nm', v', sd', ts, hnm, -, hsd, -, hp', hlo, hhi⟩
                cases hnm; cases hsd; rw [hp] at hp'
                cases hp'; exact decide_eq_true ⟨hlo, hhi⟩

/-- The accumulate-if pattern of the Python `for`/`append` loops equals
`List.filter`. -/
theorem foldl_append_filter {α : Type} (p : α → Bool) (l acc : List α) :
    l.foldl (fun a x => if p x then a ++ [x] else a) acc = acc ++ l.filter p := by
  induction l generalizing acc with
  | nil => simp
  | cons x t ih =>
    by_cases h : p x = true
    · simp [List.foldl, h, ih, List.filter_cons]
    · simp only [Bool.not_eq_true] at h
      simp [List.foldl, h, ih, List.filter_cons]

/-- Lemma: `filter_valid` is `List.filter` of the validity predicate (survivors in
input order). -/
theorem filter_valid_eq (festivals : List Festival) (now : Int) :
    filter_valid festivals now =
      festivals.filter (fun f => is_valid_festival f now) := by
  unfold filter_valid
  simpa using foldl_append_filter (fun f => is_valid_festival f now) festivals []

/-- The category-match predicate of `get_festivals_by_criteria`, for
festivals whose `name` key is present. -/
def catMatch (category : String) (f : Festival) : Bool :=
  pyIn (pyLower category) (pyLower (f.name.getD "")) ||
  pyIn (pyLower category) (pyLower (f.category.getD ""))

/-- The append loop of `get_festivals_by_criteria` over festivals with
present names collects exactly the category matches, in input order. -/
theorem foldlM_category (category : String) (l : List Festival) (acc : List Festival)
    (h : ∀ f ∈ l, f.name.isSome) :
    (List.foldlM (fun acc f => do
        let b ← categoryMatchE category f
        pure (if b then acc ++ [f] else acc)) acc l : Except Unit (List Festival))
      = Except.ok (acc ++ l.filter (catMatch category)) := by
  induction l generalizing acc with
  | nil => simp; rfl
  | cons x t ih =>
    have hx : x.name.isSome := h x (by simp)
    obtain ⟨nm, hnm⟩ : ∃ nm, x.name = some nm := Option.isSome_iff_exists.mp hx
    have hcm : categoryMatchE category x = Except.ok (catMatch category x) := by
      unfold categoryMatchE catMatch
      rw [hnm]
      rfl
    rw [List.foldlM_cons, hcm]
    show (List.foldlM _ (if catMatch category x then acc ++ [x] else acc) t :
      Except Unit (List Festival)) = _
    rw [ih _ (fun f hf => h f (by simp [hf]))]
    by_cases hb : catMatch category x = true
    · simp [hb, List.filter_cons]
    · simp only [Bool.not_eq_true] at hb
      simp [hb, List.filter_cons]

/-! ## Claim theorems -/

/-- C1: `get_ongoing_festivals` never returns an empty list (the static
seed set being the non-empty hardcoded 5-element list): when live
collection raises or yields an empty list it returns the exact seed list
unmodified, and when live collection yields a non-empty list it returns
that list unchanged. -/
theorem c1_facade_fallback :
    (∀ e, get_ongoing_festivals (Except.error e) = get_fallback_festivals) ∧
    get_ongoing_festivals (Except.ok []) = get_fallback_festivals ∧
    (∀ fs, fs ≠ [] → get_ongoing_festivals (Except.ok fs) = fs) ∧
    get_fallback_festivals.length = 5 ∧
    (∀ live, get_ongoing_festivals live ≠ []) := by
  refine ⟨fun e => rfl, rfl, fun fs h => ?_, rfl, fun live => ?_⟩
  · unfold get_ongoing_festivals
    dsimp only
    rw [if_neg (by simpa using h)]
  · cases live with
    | error e => simp [get_ongoing_festivals, get_fallback_festivals]
    | ok fs =>
      unfold get_ongoing_festivals
      dsimp only
      split
      · simp [get_fallback_festivals]
      · rename_i h
        simpa using h

/-- Witness for C1: a concrete non-empty live result is passed through
unchanged. -/
theorem c1_facade_fallback_witness :
    ([⟨some "Piknic Electronik", none, none, none, none, none, none, none, none, none⟩] :
      List Festival) ≠ [] ∧
    get_ongoing_festivals (Except.ok
      [⟨some "Piknic Electronik", none, none, none, none, none, none, none, none, none⟩]) =
      [⟨some "Piknic Electronik", none, none, none, none, none, none, none, none, none⟩] :=
  ⟨by simp, c1_facade_fallback.2.2.1 _ (by simp)⟩

/-- C4: `_categorize_event` is a pure function equal to the first-match
lookup over the ordered keyword table (music, film, food, art, comedy,
dance; `other` when nothing matches), and any text containing both "jazz"
and "gallery" (lowercased) classifies as music. -/
theorem c4_categorize_first_match :
    (∀ t, categorize_event t = firstMatchCategory t) ∧
    (∀ t, pyIn "jazz" (pyLower t) = true → pyIn "gallery" (pyLower t) = true →
      categorize_event t = "music") := by
  constructor
  · intro t
    simp only [categorize_event, firstMatchCategory, categoryTable, List.find?]
    cases h1 : List.any ["music", "concert", "jazz", "rock", "pop", "band", "singer", "festival"]
        (fun w => pyIn w (pyLower t)) <;>
      cases h2 : List.any ["film", "movie", "cinema", "documentary", "screening", "festival"]
        (fun w => pyIn w (pyLower t)) <;>
      cases h3 : List.any ["food", "culinary", "wine", "beer", "taste", "dining", "restaurant", "festival"]
        (fun w => pyIn w (pyLower t)) <;>
      cases h4 : List.any ["art", "exhibition", "gallery", "museum", "painting", "sculpture", "festival"]
        (fun w => pyIn w (pyLower t)) <;>
      cases h5 : List.any ["comedy", "standup", "humor", "laugh", "joke", "festival"]
        (fun w => pyIn w (pyLower t)) <;>
      cases h6 : List.any ["dance", "ballet", "performance", "theatre", "theater", "festival"]
        (fun w => pyIn w (pyLower t)) <;>
      simp [h1, h2, h3, h4, h5, h6]
  · intro t hj _
    have hmusic : List.any ["music", "concert", "jazz", "rock", "pop", "band", "singer", "festival"]
        (fun w => pyIn w (pyLower t)) = true := by
      simp only [List.any_cons, List.any_nil, Bool.or_eq_true]
      right; right; left; exact hj
    simp only [categorize_event]
    rw [hmusic]
    rfl

/-- Witness for C4: a text containing both "jazz" and "gallery" is
classified as music. -/
theorem c4_categorize_first_match_witness :
    pyIn "jazz" (pyLower "Jazz at the Gallery") = true ∧
    pyIn "gallery" (pyLower "Jazz at the Gallery") = true ∧
    categorize_event "Jazz at the Gallery" = "music" :=
  ⟨by decide, by decide,
    c4_categorize_first_match.2 "Jazz at the Gallery" (by decide) (by decide)⟩

/-- C5: `_get_next_weekday` returns the next occurrence of the requested
weekday strictly after today: 1–7 days ahead, with the requested weekday,
and exactly today + 7 when today already has that weekday. -/
theorem c5_next_weekday (w today : Int) (hw0 : 0 ≤ w) (hw7 : w < 7) :
    (1 ≤ get_next_weekday w today - today ∧ get_next_weekday w today - today ≤ 7) ∧
    pyWeekday (get_next_weekday w today) = w ∧
    (pyWeekday today = w → get_next_weekday w today = today + 7) := by
  unfold get_next_weekday pyWeekday
  dsimp only
  split <;> exact ⟨by omega, by omega, by omega⟩

/-- Witness for C5: 2024-07-01 was a Monday; asking for Monday (index 0)
yields exactly seven days later. -/
theorem c5_next_weekday_witness :
    pyWeekday (daysFromCivil 2024 7 1) = 0 ∧
    get_next_weekday 0 (daysFromCivil 2024 7 1) = daysFromCivil 2024 7 1 + 7 :=
  ⟨by decide,
    (c5_next_weekday 0 (daysFromCivil 2024 7 1) (by decide) (by decide)).2.2 (by decide)⟩

/-- The Validity Filter keep-condition as the spec words it (claim C2):
required fields present AND non-empty, name length ≥ 3, start parseable,
start within `[now − 30d, now + 90d]`. -/
def specKeepC2 (f : Festival) (now : Int) : Bool :=
  match f.name, f.venue, f.start_date with
  | some nm, some v, some sd =>
    decide (nm ≠ "") && decide (v ≠ "") && decide (sd ≠ "") &&
    decide (3 ≤ nm.length) &&
    (match pyFromIsoformat (pyReplaceZ sd) with
     | some dt => decide (now - 30 * 86400 ≤ dt.ts ∧ dt.ts ≤ now + 90 * 86400)
     | none => false)
  | _, _, _ => false

/-- An event whose `venue` key is present but holds the empty string, with
a valid name and an in-window naive start. -/
def emptyVenueFest : Festival :=
  { name := some "Jazz Fest", venue := some "",
    start_date := some "2024-07-01T10:00:00" }

/-- Counterexample to C2: at 2024-07-01 00:00, the code keeps an event
whose `venue` is present but empty, while the spec's keep-condition
(fields present and non-empty) excludes it — the claimed "iff" fails. -/
theorem c2_counterexample :
    is_valid_festival emptyVenueFest 1719792000 = true ∧
    specKeepC2 emptyVenueFest 1719792000 = false := by
  constructor <;> decide

/-- C2 (amended): the Validity Filter keeps an event iff name, venue and
start_date are PRESENT (venue may be empty; name non-emptiness follows
from its length bound, start_date non-emptiness from parseability), the
name has length ≥ 3, and the start parses to a timezone-naive timestamp
within `[now − 30d, now + 90d]`; the predicate is total (never raises) and
the filter loop keeps survivors in input order. -/
theorem c2_validity_filter :
    (∀ f now, is_valid_festival f now = true ↔
      ∃ nm v sd ts, f.name = some nm ∧ f.venue = some v ∧ f.start_date = some sd ∧
        3 ≤ nm.length ∧ pyFromIsoformat (pyReplaceZ sd) = some ⟨ts, none⟩ ∧
        now - 30 * 86400 ≤ ts ∧ ts ≤ now + 90 * 86400) ∧
    (∀ fs now, filter_valid fs now = fs.filter (fun f => is_valid_festival f now)) :=
  ⟨is_valid_festival_iff, filter_valid_eq⟩

/-- A minimal event passing every check of the Validity Filter. -/
def plainValidFest : Festival :=
  { name := some "Jazz Fest", venue := some "Metropolis",
    start_date := some "2024-07-01T10:00:00" }

/-- C3: boundary inclusiveness of the validity window, for events passing
the field and name checks whose start parses to a naive timestamp: a start
exactly at now − 30 days or now + 90 days is accepted; at now − 31 days or
now + 91 days it is rejected. -/
theorem c3_window_boundaries (f : Festival) (now ts : Int) (nm v sd : String)
    (hn : f.name = some nm) (hlen : 3 ≤ nm.length) (hv : f.venue = some v)
    (hs : f.start_date = some sd)
    (hp : pyFromIsoformat (pyReplaceZ sd) = some ⟨ts, none⟩) :
    (ts = now - 30 * 86400 → is_valid_festival f now = true) ∧
    (ts = now + 90 * 86400 → is_valid_festival f now = true) ∧
    (ts = now - 31 * 86400 → is_valid_festival f now = false) ∧
    (ts = now + 91 * 86400 → is_valid_festival f now = false) := by
  refine ⟨fun h => ?_, fun h => ?_, fun h => ?_, fun h => ?_⟩
  · exact (is_valid_festival_iff f now).mpr ⟨nm, v, sd, ts, hn, hv, hs, hlen, hp, by omega, by omega⟩
  · exact (is_valid_festival_iff f now).mpr ⟨nm, v, sd, ts, hn, hv, hs, hlen, hp, by omega, by omega⟩
  · rw [← Bool.not_eq_true]
    intro hvalid
    obtain ⟨nm', v', sd', ts', hn', hv', hs', hlen', hp', hlo, hhi⟩ :=
      (is_valid_festival_iff f now).mp hvalid
    rw [hs] at hs'; cases hs'
    rw [hp] at hp'; cases hp'
    omega
  · rw [← Bool.not_eq_true]
    intro hvalid
    obtain ⟨nm', v', sd', ts', hn', hv', hs', hlen', hp', hlo, hhi⟩ :=
      (is_valid_festival_iff f now).mp hvalid
    rw [hs] at hs'; cases hs'
    rw [hp] at hp'; cases hp'
    omega

/-- Witness for C3: the start 2024-07-01T10:00:00 (timestamp 1719828000)
is exactly 30 days before a "now" of 2024-07-31T10:00:00, and the event is
accepted. -/
theorem c3_window_boundaries_witness :
    pyFromIsoformat (pyReplaceZ "2024-07-01T10:00:00") = some ⟨1719828000, none⟩ ∧
    is_valid_festival plainValidFest (1719828000 + 30 * 86400) = true :=
  ⟨by decide,
    (c3_window_boundaries plainValidFest (1719828000 + 30 * 86400) 1719828000
      "Jazz Fest" "Metropolis" "2024-07-01T10:00:00" rfl (by decide) rfl rfl
      (by decide)).1 (by decide)⟩

/-- C10: every event whose start_date parses to a timezone-aware datetime
(an explicit `+HH:MM`/`-HH:MM` offset, or a trailing `Z` which the code
rewrites to `+00:00` — the forms the Ticketmaster and Eventbrite adapters
produce) is rejected by the Validity Filter for EVERY value of "now": the
aware start cannot be compared with the naive `datetime.now()`, the
comparison raises `TypeError`, and the handler returns false. -/
theorem c10_aware_start_rejected (f : Festival) (now : Int) (sd : String)
    (ts o : Int)
    (hs : f.start_date = some sd)
    (hp : pyFromIsoformat (pyReplaceZ sd) = some ⟨ts, some o⟩) :
    is_valid_festival f now = false := by
  rw [← Bool.not_eq_true]
  intro hvalid
  obtain ⟨nm', v', sd', ts', hn', hv', hs', hlen', hp', hlo, hhi⟩ :=
    (is_valid_festival_iff f now).mp hvalid
  rw [hs] at hs'; cases hs'
  rw [hp] at hp'
  exact absurd hp' (by simp)

/-- An event with a UTC-marked (`Z`) start, as the Ticketmaster adapter
produces. -/
def utcStartFest : Festival :=
  { name := some "Jazz Fest", venue := some "Metropolis",
    start_date := some "2024-07-01T10:00:00Z" }

/-- Witness for C10: a `Z`-suffixed start one second away from "now" is
still rejected. -/
theorem c10_aware_start_rejected_witness :
    pyFromIsoformat (pyReplaceZ "2024-07-01T10:00:00Z") = some ⟨1719828000, some 0⟩ ∧
    is_valid_festival utcStartFest 1719828001 = false :=
  ⟨by decide,
    c10_aware_start_rejected utcStartFest 1719828001 "2024-07-01T10:00:00Z"
      1719828000 0 rfl (by decide)⟩

/-- The event of the C6 scenario: start 2024-06-27T18:00:00, end
2024-07-06T23:00:00 (both naive). -/
def jazzWindowFest : Festival :=
  { start_date := some "2024-06-27T18:00:00", end_date := some "2024-07-06T23:00:00" }

/-- C6: `_is_festival_at_time` returns true iff both event dates are
present and parse (date-only or full-timestamp form), and after localizing
every naive value to the fixed Montreal timezone the instants satisfy
start ≤ target ≤ end; every failure yields false, never an error (the
function is total into `Bool`).  In particular the 2024-06-27 → 2024-07-06
event contains the local target 2024-06-30T20:00:00. -/
theorem c6_containment_check :
    (∀ f target, is_festival_at_time f target = true ↔
      ∃ s e sd ed, f.start_date = some s ∧ f.end_date = some e ∧
        parseEventDateStr s = some sd ∧ parseEventDateStr e = some ed ∧
        utcTs (localizeIfNaive sd) ≤ utcTs (localizeIfNaive target) ∧
        utcTs (localizeIfNaive target) ≤ utcTs (localizeIfNaive ed)) ∧
    is_festival_at_time jazzWindowFest ⟨1719777600, some MONTREAL_OFFSET⟩ = true := by
  refine ⟨fun f target => ?_, by decide⟩
  unfold is_festival_at_time
  cases hs : f.start_date with
  | none => simp
  | some s =>
    cases he : f.end_date with
    | none => simp
    | some e =>
      dsimp only
      cases hps : parseEventDateStr s with
      | none => simp [hps]
      | some sd =>
        cases hpe : parseEventDateStr e with
        | none => simp [hps, hpe]
        | some ed =>
          dsimp only
          simp only [Bool.and_eq_true, decide_eq_true_eq, Option.some.injEq]
          constructor
          · rintro ⟨h1, h2⟩
            exact ⟨s, e, sd, ed, rfl, rfl, hps, hpe, h1, h2⟩
          · rintro ⟨s', e', sd', ed', hs', he', hps', hpe', h1, h2⟩
            cases hs'; cases he'
            rw [hps] at hps'; cases hps'
            rw [hpe] at hpe'; cases hpe'
            exact ⟨h1, h2⟩

/-- Counterexample to C7: on a morning (current hour 9), the Criteria
Parser applied to "music tonight" yields day = "tonight" (not "today") and
time = "morning" (inferred from the clock, not "evening") — the claimed
triple (music, today, evening) is not what the parser returns. -/
theorem c7_counterexample :
    parse_user_input "music tonight" 9 = ("music", "tonight", "morning") ∧
    parse_user_input "music tonight" 9 ≠ ("music", "today", "evening") := by
  constructor <;> decide

/-- C7 (amended): for the input "music tonight" and any current hour, the
Criteria Parser yields category "music", day "tonight", and a time bucket
inferred from the clock; and the Temporal Matcher resolves day "tonight"
with ANY time component to today at 19:00 local (the "tonight" branch
forces evening), so the request resolves to today 19:00 regardless of the
current weekday or hour. -/
theorem c7_music_tonight (current_hour : Int) (time : String) (current : PyDateTime) :
    parse_user_input "music tonight" current_hour =
      ("music", "tonight", inferTime current_hour) ∧
    parse_datetime "tonight" time current =
      localizeMontreal ⟨dateOfTs current.ts * 86400 + 19 * 3600, none⟩ := by
  exact ⟨rfl, rfl⟩

/-- C8: `get_festivals_by_criteria` returns exactly the festivals whose
lowercased name or category field contains the lowercased requested
category — for every festival list (with the `name` key present, as every
producer guarantees), every category and every day/time criteria.  Thus a
category-matched festival is never excluded for falling outside the
requested day/time window: day and time do not affect the result at all. -/
theorem c8_category_match_only (festivals : List Festival)
    (category day time : String) (current : PyDateTime)
    (h : ∀ f ∈ festivals, f.name.isSome) :
    get_festivals_by_criteria festivals category day time current =
      festivals.filter (catMatch category) := by
  unfold get_festivals_by_criteria
  dsimp only
  rw [ite_self, foldlM_category category festivals [] h]
  simp

/-- Witness for C8: on the seed list with category "music" and a concrete
(day, time) pair, the result is exactly the category-filtered list. -/
theorem c8_category_match_only_witness :
    (∀ f ∈ get_fallback_festivals, f.name.isSome) ∧
    get_festivals_by_criteria get_fallback_festivals "music" "monday" "evening"
        ⟨1720020600, some MONTREAL_OFFSET⟩ =
      get_fallback_festivals.filter (catMatch "music") :=
  ⟨by decide,
    c8_category_match_only get_fallback_festivals "music" "monday" "evening"
      ⟨1720020600, some MONTREAL_OFFSET⟩ (by decide)⟩

/-- The window claim C9 places "now" in, for a given seed event:
`now ∈ [start − 30d, start + 90d]` (the spec's words). -/
def nowInClaimedSeedWindow (f : Festival) (now : Int) : Bool :=
  match f.start_date with
  | some sd =>
    match pyFromIsoformat (pyReplaceZ sd) with
    | some dt => decide (dt.ts - 30 * 86400 ≤ now ∧ now ≤ dt.ts + 90 * 86400)
    | none => false
  | none => false

/-- The window on "now" under which the filter actually accepts an event:
`now − 30d ≤ start ≤ now + 90d` rearranged, i.e.
`now ∈ [start − 90d, start + 30d]`. -/
def nowInSeedAcceptWindow (f : Festival) (now : Int) : Bool :=
  match f.start_date with
  | some sd =>
    match pyFromIsoformat (pyReplaceZ sd) with
    | some dt => decide (dt.ts - 90 * 86400 ≤ now ∧ now ≤ dt.ts + 30 * 86400)
    | none => false
  | none => false

/-- Counterexample to C9: "now" = 2024-09-25T18:00:00 (timestamp
1727287200) lies inside EVERY seed event's claimed `[start − 30d,
start + 90d]` window, yet the Validity Filter does not return the seed
list (it drops all five seeds, whose starts lie before now − 30d). -/
theorem c9_counterexample :
    get_fallback_festivals.all (fun f => nowInClaimedSeedWindow f 1727287200) = true ∧
    filter_valid get_fallback_festivals 1727287200 ≠ get_fallback_festivals := by
  constructor <;> decide

/-- C9 (amended): feeding the static seed list through the Validity Filter
with "now" chosen inside every seed event's acceptance window
`[start − 90d, start + 30d]` yields the identical list, element for
element and in order. -/
theorem c9_seed_roundtrip (now : Int)
    (h : ∀ f ∈ get_fallback_festivals, nowInSeedAcceptWindow f now = true) :
    filter_valid get_fallback_festivals now = get_fallback_festivals := by
  rw [filter_valid_eq]
  simp only [get_fallback_festivals, List.mem_cons, List.not_mem_nil, or_false,
    forall_eq_or_imp, forall_eq] at h
  obtain ⟨h1, h2, h3, h4, h5⟩ := h
  have b1 : decide (1719511200 - 90 * 86400 ≤ now ∧ now ≤ 1719511200 + 30 * 86400) = true := h1
  have b2 : decide (1722600000 - 90 * 86400 ≤ now ∧ now ≤ 1722600000 + 30 * 86400) = true := h2
  have b3 : decide (1720638000 - 90 * 86400 ≤ now ∧ now ≤ 1720638000 + 30 * 86400) = true := h3
  have b4 : decide (1724320800 - 90 * 86400 ≤ now ∧ now ≤ 1724320800 + 30 * 86400) = true := h4
  have b5 : decide (1721041200 - 90 * 86400 ≤ now ∧ now ≤ 1721041200 + 30 * 86400) = true := h5
  have w1 := of_decide_eq_true b1
  have w2 := of_decide_eq_true b2
  have w3 := of_decide_eq_true b3
  have w4 := of_decide_eq_true b4
  have w5 := of_decide_eq_true b5
  have v1 : is_valid_festival
      { name := some "Montreal Jazz Festival", venue := some "Quartier des Spectacles",
        address := some "Quartier des Spectacles, Montreal, QC H2X 1X8",
        start_date := some "2024-06-27T18:00:00", end_date := some "2024-07-06T23:00:00",
        url := some "https://www.montrealjazzfest.com", source := some "Fallback Data",
        category := some "music", price := some "$25-150 CAD",
        metro := some "Place-des-Arts" } now = true :=
    (is_valid_festival_iff _ now).mpr
      ⟨_, _, _, 1719511200, rfl, rfl, rfl, by decide, by decide, by omega, by omega⟩
  have v2 : is_valid_festival
      { name := some "Osheaga Music Festival", venue := some "Parc Jean-Drapeau",
        address := some "Parc Jean-Drapeau, Montreal, QC H3C 6A3",
        start_date := some "2024-08-02T12:00:00", end_date := some "2024-08-04T23:00:00",
        url := some "https://www.osheaga.com", source := some "Fallback Data",
        category := some "music", price := some "$150-300 CAD",
        metro := some "Jean-Drapeau" } now = true :=
    (is_valid_festival_iff _ now).mpr
      ⟨_, _, _, 1722600000, rfl, rfl, rfl, by decide, by decide, by omega, by omega⟩
  have v3 : is_valid_festival
      { name := some "Just for Laughs Comedy Festival", venue := some "Quartier Latin",
        address := some "Quartier Latin, Montreal, QC H2L 2L4",
        start_date := some "2024-07-10T19:00:00", end_date := some "2024-07-28T23:00:00",
        url := some "https://www.hahaha.com", source := some "Fallback Data",
        category := some "comedy", price := some "$30-120 CAD",
        metro := some "Berri-UQAM" } now = true :=
    (is_valid_festival_iff _ now).mpr
      ⟨_, _, _, 1720638000, rfl, rfl, rfl, by decide, by decide, by omega, by omega⟩
  have v4 : is_valid_festival
      { name := some "Montreal International Film Festival", venue := some "Various Cinemas",
        address := some "Downtown Montreal, QC",
        start_date := some "2024-08-22T10:00:00", end_date := some "2024-09-02T23:00:00",
        url := some "https://www.ffm-montreal.org", source := some "Fallback Data",
        category := some "film", price := some "$15-50 CAD",
        metro := some "Place-des-Arts" } now = true :=
    (is_valid_festival_iff _ now).mpr
      ⟨_, _, _, 1724320800, rfl, rfl, rfl, by decide, by decide, by omega, by omega⟩
  have v5 : is_valid_festival
      { name := some "Montreal Food Festival", venue := some "Old Port of Montreal",
        address := some "Old Port of Montreal, QC H2Y 1C6",
        start_date := some "2024-07-15T11:00:00", end_date := some "2024-07-21T22:00:00",
        url := some "https://www.montrealfoodfest.com", source := some "Fallback Data",
        category := some "food", price := some "$20-80 CAD",
        metro := some "Place-d'Armes" } now = true :=
    (is_valid_festival_iff _ now).mpr
      ⟨_, _, _, 1721041200, rfl, rfl, rfl, by decide, by decide, by omega, by omega⟩
  simp only [get_fallback_festivals, List.filter_cons, v1, v2, v3, v4, v5,
    if_true, List.filter_nil]

/-- Witness for C9 (amended): "now" = 2024-07-25T12:00:00 lies in every
seed's acceptance window and the filter returns the seed list intact. -/
theorem c9_seed_roundtrip_witness :
    (∀ f ∈ get_fallback_festivals, nowInSeedAcceptWindow f 1721908800 = true) ∧
    filter_valid get_fallback_festivals 1721908800 = get_fallback_festivals :=
  ⟨by decide, c9_seed_roundtrip 1721908800 (by decide)⟩
